import Mathlib

/-!
Verification development for the Substore subscription conversion script
(src/convert.js of hazicy/override-rules). The script classifies proxy
descriptors by region and cost tier and synthesizes a mihomo configuration:
proxy groups, rules, DNS and sniffer settings. This file gives a shallow
embedding of the script's data model and functions and proves the stated
properties about them. JavaScript regular expressions that are alternations
of literal strings are modelled as substring tests over the alternatives;
machine details (UTF-16 vs. codepoints) do not matter for the properties
proved here because all patterns and names are compared as whole characters.
-/

namespace OverrideRules

/-- A JavaScript value as the script's argument parser can receive it:
a boolean, a string, a (integral) number, null or undefined. -/
inductive JSValue where
  | vBool (b : Bool)
  | vStr (s : String)
  | vNum (n : Int)
  | vNull
  | vUndefined
  deriving Repr, DecidableEq

/-- JavaScript String.prototype.toLowerCase restricted to the simple
per-character mapping (ASCII letters; all other characters map to
themselves), written over the character list so it evaluates in the kernel. -/
def jsToLower (s : String) : String := ⟨s.data.map Char.toLower⟩

/-- parseBool from convert.js: a boolean passes through; a string is true
when it is "true" in any letter case or exactly "1"; anything else is false. -/
def parseBool : JSValue → Bool
  | .vBool b => b
  | .vStr s => jsToLower s == "true" || s == "1"
  | _ => false

/-- JavaScript parseInt(s, 10): skip leading whitespace, read an optional
sign and then leading decimal digits; no digits means NaN (here: none). -/
def jsParseInt (s : String) : Option Int :=
  let t := s.data.dropWhile (fun c => c == ' ' || c == '\t' || c == '\n' || c == '\r')
  let signAndRest : Int × List Char :=
    match t with
    | '-' :: r => (-1, r)
    | '+' :: r => (1, r)
    | r => (1, r)
  let ds := signAndRest.2.takeWhile Char.isDigit
  if ds.isEmpty then none
  else some (signAndRest.1 * (ds.foldl (fun acc c => acc * 10 + (c.toNat - 48)) 0 : Nat))

/-- parseNumber from convert.js: null/undefined give the default, otherwise
parseInt with NaN falling back to the default (parseInt of a boolean is NaN). -/
def parseNumber (value : JSValue) (defaultValue : Int) : Int :=
  match value with
  | .vNull => defaultValue
  | .vUndefined => defaultValue
  | .vNum n => n
  | .vBool _ => defaultValue
  | .vStr s => (jsParseInt s).getD defaultValue

/-- The raw script arguments ($arguments): each recognized key may hold any
JavaScript value (absent keys arrive as undefined). -/
structure RawArgs where
  loadbalance : JSValue
  landing : JSValue
  ipv6 : JSValue
  full : JSValue
  keepalive : JSValue
  fakeip : JSValue
  quic : JSValue
  threshold : JSValue
  deriving Repr, DecidableEq

/-- The internal feature flags of one synthesis run. -/
structure FeatureFlags where
  loadBalance : Bool
  landing : Bool
  ipv6Enabled : Bool
  fullConfig : Bool
  keepAliveEnabled : Bool
  fakeIPEnabled : Bool
  quicEnabled : Bool
  countryThreshold : Int
  deriving Repr, DecidableEq

/-- buildFeatureFlags from convert.js: every boolean parameter goes through
parseBool (then || false, the identity on booleans); threshold goes through
parseNumber with default 0. -/
def buildFeatureFlags (args : RawArgs) : FeatureFlags :=
  { loadBalance := parseBool args.loadbalance || false
    landing := parseBool args.landing || false
    ipv6Enabled := parseBool args.ipv6 || false
    fullConfig := parseBool args.full || false
    keepAliveEnabled := parseBool args.keepalive || false
    fakeIPEnabled := parseBool args.fakeip || false
    quicEnabled := parseBool args.quic || false
    countryThreshold := parseNumber args.threshold 0 }

/-- A proxy descriptor: the script only reads its name. -/
structure Proxy where
  name : String
  deriving Repr, DecidableEq

/-- The input configuration: a possibly absent list of proxies
(the script reads config.proxies || []). -/
structure ClashConfig where
  proxies : Option (List Proxy)
  deriving Repr, DecidableEq

def NODE_SUFFIX : String := "节点"

namespace PROXY_GROUPS

def SELECT : String := "选择代理"

def MANUAL : String := "手动选择"

def FALLBACK : String := "故障转移"

def DIRECT : String := "直连"

def LANDING : String := "落地节点"

def LOW_COST : String := "低倍率节点"

end PROXY_GROUPS

/-- Split a regex pattern that is a bar-separated alternation of literal
strings into its alternatives, over character lists so it evaluates in the
kernel. The accumulator holds the current alternative reversed. -/
def splitAlternatives : List Char → List Char → List (List Char)
  | [], acc => [acc.reverse]
  | c :: rest, acc =>
    if c = '|' then acc.reverse :: splitAlternatives rest []
    else splitAlternatives rest (c :: acc)

/-- Whether the character list pat occurs contiguously inside l
(the substring test underlying a literal regex alternative). -/
def occursIn (pat : List Char) : List Char → Bool
  | [] => pat.isEmpty
  | c :: rest => pat.isPrefixOf (c :: rest) || occursIn pat rest

/-- Test of a case-sensitive regular expression that is a bar-separated
alternation of literal strings: some alternative occurs in the name. -/
def regexAltTest (pattern name : String) : Bool :=
  (splitAlternatives pattern.data []).any (fun alt => occursIn alt name.data)

/-- The same test for a regex compiled with the case-insensitive flag i:
both sides are lowered character by character first. -/
def regexAltTestCI (pattern name : String) : Bool :=
  (splitAlternatives pattern.data []).any
    (fun alt => occursIn (alt.map Char.toLower) (name.data.map Char.toLower))

/-- The ISP/landing exclusion regex of parseCountries,
/家宽|家庭|家庭宽带|商宽|商业宽带|星链|Starlink|落地/i. -/
def ispRegexPattern : String := "家宽|家庭|家庭宽带|商宽|商业宽带|星链|Starlink|落地"

def ispTest (name : String) : Bool := regexAltTestCI ispRegexPattern name

/-- The low-cost regex /0\.[0-5]|低倍率|省流|大流量|实验性/i of hasLowCost:
the character class 0\.[0-5] is expanded into its six literal matches. -/
def lowCostTest (name : String) : Bool :=
  regexAltTestCI "0.0|0.1|0.2|0.3|0.4|0.5|低倍率|省流|大流量|实验性" name

/-- Region metadata: a match pattern and an icon URL. -/
structure CountryMeta where
  pattern : String
  icon : String
  deriving Repr, DecidableEq

/-- The region catalog of convert.js, in its (insertion-)order: JavaScript
Object.entries iterates non-numeric string keys in insertion order. -/
def countriesMeta : List (String × CountryMeta) := [
  ("香港", { pattern := "香港|港|HK|hk|Hong Kong|HongKong|hongkong|🇭🇰", icon := "https://gcore.jsdelivr.net/gh/Koolson/Qure@master/IconSet/Color/Hong_Kong.png" }),
  ("澳门", { pattern := "澳门|MO|Macau|🇲🇴", icon := "https://gcore.jsdelivr.net/gh/Koolson/Qure@master/IconSet/Color/Macao.png" }),
  ("台湾", { pattern := "台|新北|彰化|TW|Taiwan|🇹🇼", icon := "https://gcore.jsdelivr.net/gh/Koolson/Qure@master/IconSet/Color/Taiwan.png" }),
  ("新加坡", { pattern := "新加坡|坡|狮城|SG|Singapore|🇸🇬", icon := "https://gcore.jsdelivr.net/gh/Koolson/Qure@master/IconSet/Color/Singapore.png" }),
  ("日本", { pattern := "日本|川日|东京|大阪|泉日|埼玉|沪日|深日|JP|Japan|🇯🇵", icon := "https://gcore.jsdelivr.net/gh/Koolson/Qure@master/IconSet/Color/Japan.png" }),
  ("韩国", { pattern := "KR|Korea|KOR|首尔|韩|韓|🇰🇷", icon := "https://gcore.jsdelivr.net/gh/Koolson/Qure@master/IconSet/Color/Korea.png" }),
  ("美国", { pattern := "美国|美|US|United States|🇺🇸", icon := "https://gcore.jsdelivr.net/gh/Koolson/Qure@master/IconSet/Color/United_States.png" }),
  ("加拿大", { pattern := "加拿大|Canada|CA|🇨🇦", icon := "https://gcore.jsdelivr.net/gh/Koolson/Qure@master/IconSet/Color/Canada.png" }),
  ("英国", { pattern := "英国|United Kingdom|UK|伦敦|London|🇬🇧", icon := "https://gcore.jsdelivr.net/gh/Koolson/Qure@master/IconSet/Color/United_Kingdom.png" }),
  ("澳大利亚", { pattern := "澳洲|澳大利亚|AU|Australia|🇦🇺", icon := "https://gcore.jsdelivr.net/gh/Koolson/Qure@master/IconSet/Color/Australia.png" }),
  ("德国", { pattern := "德国|德|DE|Germany|🇩🇪", icon := "https://gcore.jsdelivr.net/gh/Koolson/Qure@master/IconSet/Color/Germany.png" }),
  ("法国", { pattern := "法国|法|FR|France|🇫🇷", icon := "https://gcore.jsdelivr.net/gh/Koolson/Qure@master/IconSet/Color/France.png" }),
  ("俄罗斯", { pattern := "俄罗斯|俄|RU|Russia|🇷🇺", icon := "https://gcore.jsdelivr.net/gh/Koolson/Qure@master/IconSet/Color/Russia.png" }),
  ("泰国", { pattern := "泰国|泰|TH|Thailand|🇹🇭", icon := "https://gcore.jsdelivr.net/gh/Koolson/Qure@master/IconSet/Color/Thailand.png" }),
  ("印度", { pattern := "印度|IN|India|🇮🇳", icon := "https://gcore.jsdelivr.net/gh/Koolson/Qure@master/IconSet/Color/India.png" }),
  ("马来西亚", { pattern := "马来西亚|马来|MY|Malaysia|🇲🇾", icon := "https://gcore.jsdelivr.net/gh/Koolson/Qure@master/IconSet/Color/Malaysia.png" })]

/-- parseCountries compiles each pattern after stripping a legacy leading
(?i) flag; no catalog pattern carries one, so this is the identity here. -/
def stripLeadingCaseFlag (p : String) : String :=
  if ("(?i)".data).isPrefixOf p.data then ⟨p.data.drop 4⟩ else p

/-- The compiled (case-sensitive) test of one region's pattern. -/
def regionTest (m : CountryMeta) (name : String) : Bool :=
  regexAltTest (stripLeadingCaseFlag m.pattern) name

/-- One entry of the classification result: a region and its match count. -/
structure RegionCount where
  country : String
  count : Nat
  deriving Repr, DecidableEq

/-- countryCounts[country] = (countryCounts[country] || 0) + 1 on a plain
object whose entries keep first-insertion order: the first entry for the
country is incremented in place, a missing country is appended with count 1. -/
def bump : List RegionCount → String → List RegionCount
  | [], c => [⟨c, 1⟩]
  | e :: rest, c =>
    if e.country = c then ⟨e.country, e.count + 1⟩ :: rest else e :: bump rest c

/-- The body of parseCountries' per-proxy loop: skip the proxy when the ISP
regex matches its name, otherwise count it for the first region of the
catalog whose pattern matches (break after the first match). -/
def classifyOne (counts : List RegionCount) (p : Proxy) : List RegionCount :=
  if ispTest p.name then counts
  else
    match countriesMeta.find? (fun e => regionTest e.2 p.name) with
    | some e => bump counts e.1
    | none => counts

/-- parseCountries from convert.js: fold the per-proxy classification over
config.proxies || [], then report the accumulated object as an entry list. -/
def parseCountries (config : ClashConfig) : List RegionCount :=
  (config.proxies.getD []).foldl classifyOne []

/-- hasLowCost from convert.js: some proxy's name matches the low-cost regex. -/
def hasLowCost (config : ClashConfig) : Bool :=
  (config.proxies.getD []).any (fun p => lowCostTest p.name)

/-- The count reported for a region: the count of its first entry, or 0. -/
def regionCountOf (info : List RegionCount) (c : String) : Nat :=
  match info.find? (fun e => e.country == c) with
  | some e => e.count
  | none => 0

/-- The regions of the catalog whose pattern matches a name, in catalog order. -/
def matchingRegions (name : String) : List String :=
  (countriesMeta.filter (fun e => regionTest e.2 name)).map Prod.fst

/-- The region parseCountries counts a (non-excluded) proxy for: the first
region of the catalog whose pattern matches the name. -/
def firstMatchingRegion (name : String) : Option String :=
  (countriesMeta.find? (fun e => regionTest e.2 name)).map Prod.fst

/-- getCountryGroupNames from convert.js: the regions whose count reaches
minCount, each as "<country>节点". -/
def getCountryGroupNames (countryInfo : List RegionCount) (minCount : Int) : List String :=
  (countryInfo.filter (fun item => decide (minCount ≤ (item.count : Int)))).map
    (fun item => item.country ++ NODE_SUFFIX)

/-- name.replace(/节点$/, ''): remove a trailing 节点, written over the
character list so it evaluates in the kernel. -/
def stripNodeSuffixOne (name : String) : String :=
  if NODE_SUFFIX.data.isSuffixOf name.data then
    ⟨name.data.take (name.data.length - NODE_SUFFIX.data.length)⟩
  else name

/-- stripNodeSuffix from convert.js. -/
def stripNodeSuffix (groupNames : List String) : List String :=
  groupNames.map stripNodeSuffixOne

/-- The four base member lists of buildBaseLists. -/
structure BaseLists where
  defaultProxies : List String
  defaultProxiesDirect : List String
  defaultSelector : List String
  defaultFallback : List String
  deriving Repr, DecidableEq

/-- buildBaseLists from convert.js: each list concatenates constant anchors,
the qualifying region group names and the conditional landing/low-cost hubs;
buildList drops the falsy (disabled) elements, modelled as empty segments. -/
def buildBaseLists (landing lowCost : Bool) (countryGroupNames : List String) : BaseLists :=
  { defaultSelector :=
      [PROXY_GROUPS.FALLBACK] ++ (if landing then [PROXY_GROUPS.LANDING] else []) ++
      countryGroupNames ++ (if lowCost then [PROXY_GROUPS.LOW_COST] else []) ++
      [PROXY_GROUPS.MANUAL, "DIRECT"]
    defaultProxies :=
      [PROXY_GROUPS.SELECT] ++ countryGroupNames ++
      (if lowCost then [PROXY_GROUPS.LOW_COST] else []) ++
      [PROXY_GROUPS.MANUAL, PROXY_GROUPS.DIRECT]
    defaultProxiesDirect :=
      [PROXY_GROUPS.DIRECT] ++ countryGroupNames ++
      (if lowCost then [PROXY_GROUPS.LOW_COST] else []) ++
      [PROXY_GROUPS.SELECT, PROXY_GROUPS.MANUAL]
    defaultFallback :=
      (if landing then [PROXY_GROUPS.LANDING] else []) ++ countryGroupNames ++
      (if lowCost then [PROXY_GROUPS.LOW_COST] else []) ++
      [PROXY_GROUPS.MANUAL, "DIRECT"] }

/-- A proxy group as convert.js builds one; fields the script leaves unset
on a given group are none/false here. -/
structure ProxyGroup where
  name : String
  icon : String
  type : String
  proxies : Option (List String) := none
  includeAll : Bool := false
  filter : Option String := none
  excludeFilter : Option String := none
  url : Option String := none
  interval : Option Nat := none
  tolerance : Option Nat := none
  lazy : Option Bool := none
  deriving Repr, DecidableEq

/-- The base exclude-filter of the region pool groups (the low-cost pattern,
as its source string with the escaped dot). -/
def baseExcludeFilter : String := "0\\.[0-5]|低倍率|省流|大流量|实验性"

/-- The landing/ISP exclude-filter of the region pool groups. -/
def landingExcludeFilter : String := "(?i)家宽|家庭|家庭宽带|商宽|商业宽带|星链|Starlink|落地"

/-- buildCountryProxyGroups from convert.js: one pool group per listed
country that has catalog metadata (countries without metadata are skipped);
load-balance when loadBalance is set, else url-test with health-check
fields; the exclude-filter always carries the low-cost pattern and also the
landing/ISP pattern when landing is set. -/
def buildCountryProxyGroups (countries : List String) (landing loadBalance : Bool) :
    List ProxyGroup :=
  countries.filterMap (fun country =>
    match countriesMeta.find? (fun e => e.1 == country) with
    | none => none
    | some e => some
      { name := country ++ NODE_SUFFIX
        icon := e.2.icon
        includeAll := true
        filter := some e.2.pattern
        excludeFilter := some (if landing then landingExcludeFilter ++ "|" ++ baseExcludeFilter
          else baseExcludeFilter)
        type := if loadBalance then "load-balance" else "url-test"
        url := if loadBalance then none else some "https://cp.cloudflare.com/generate_204"
        interval := if loadBalance then none else some 60
        tolerance := if loadBalance then none else some 20
        lazy := if loadBalance then none else some false })

/-- buildProxyGroups from convert.js: the ordered group graph. The
conditional entries (front proxy and landing hub when landing, low-cost hub
when lowCost) are modelled as options, filtered out like the script's
.filter(Boolean); the country pool groups are spread at the end. -/
def buildProxyGroups (landing : Bool) (countries : List String)
    (countryProxyGroups : List ProxyGroup) (lowCost : Bool)
    (defaultProxies defaultProxiesDirect defaultSelector defaultFallback : List String) :
    List ProxyGroup :=
  let hasTW := countries.contains "台湾"
  let hasHK := countries.contains "香港"
  let hasUS := countries.contains "美国"
  let frontProxySelector :=
    if landing then
      defaultSelector.filter (fun name =>
        !(name == PROXY_GROUPS.LANDING) && !(name == PROXY_GROUPS.FALLBACK))
    else []
  let _ := hasUS
  let fixedGroups : List (Option ProxyGroup) := [
    some { name := PROXY_GROUPS.SELECT,
           icon := "https://gcore.jsdelivr.net/gh/Koolson/Qure@master/IconSet/Color/Proxy.png",
           type := "select", proxies := some defaultSelector },
    some { name := PROXY_GROUPS.MANUAL,
           icon := "https://gcore.jsdelivr.net/gh/shindgewongxj/WHATSINStash@master/icon/select.png",
           includeAll := true, type := "select" },
    (if landing then some
      { name := "前置代理",
        icon := "https://gcore.jsdelivr.net/gh/Koolson/Qure@master/IconSet/Color/Area.png",
        type := "select", includeAll := true,
        excludeFilter := some "(?i)家宽|家庭|家庭宽带|商宽|商业宽带|星链|Starlink|落地",
        proxies := some frontProxySelector }
      else none),
    (if landing then some
      { name := PROXY_GROUPS.LANDING,
        icon := "https://gcore.jsdelivr.net/gh/Koolson/Qure@master/IconSet/Color/Airport.png",
        type := "select", includeAll := true,
        filter := some "(?i)家宽|家庭|家庭宽带|商宽|商业宽带|星链|Starlink|落地" }
      else none),
    some { name := PROXY_GROUPS.FALLBACK,
           icon := "https://gcore.jsdelivr.net/gh/Koolson/Qure@master/IconSet/Color/Bypass.png",
           type := "fallback", url := some "https://cp.cloudflare.com/generate_204",
           proxies := some defaultFallback, interval := some 180, tolerance := some 20,
           lazy := some false },
    some { name := "🔒 私有网络",
           icon := "https://gcore.jsdelivr.net/gh/Koolson/Qure@master/IconSet/Color/Private.png",
           type := "select", proxies := some [PROXY_GROUPS.DIRECT] },
    some { name := "🛑 广告域名",
           icon := "https://gcore.jsdelivr.net/gh/Koolson/Qure@master/IconSet/Color/AdBlack.png",
           type := "select", proxies := some ["REJECT", "REJECT-DROP", PROXY_GROUPS.DIRECT] },
    some { name := "📋 Trackerslist",
           icon := "https://gcore.jsdelivr.net/gh/Koolson/Qure@master/IconSet/Color/AdBlack.png",
           type := "select", proxies := some ["REJECT", "REJECT-DROP", PROXY_GROUPS.DIRECT] },
    some { name := "⬇️ 直连软件",
           icon := "https://gcore.jsdelivr.net/gh/Koolson/Qure@master/IconSet/Color/Terminal.png",
           type := "select", proxies := some [PROXY_GROUPS.DIRECT] },
    some { name := "🪟 微软服务",
           icon := "https://gcore.jsdelivr.net/gh/hazicy/override-rules@master/icons/Microsoft_Copilot.png",
           type := "select", proxies := some defaultProxiesDirect },
    some { name := "🍎 苹果服务",
           icon := "https://gcore.jsdelivr.net/gh/Koolson/Qure@master/IconSet/Color/Apple.png",
           type := "select", proxies := some defaultProxiesDirect },
    some { name := "🇬 谷歌服务",
           icon := "https://gcore.jsdelivr.net/gh/hazicy/override-rules@master/icons/Google.png",
           type := "select", proxies := some defaultProxiesDirect },
    some { name := "🎮 游戏服务",
           icon := "https://gcore.jsdelivr.net/gh/Koolson/Qure@master/IconSet/Color/Game.png",
           type := "select", proxies := some defaultProxiesDirect },
    some { name := "🎥 奈飞视频",
           icon := "https://gcore.jsdelivr.net/gh/Koolson/Qure@master/IconSet/Color/Netflix.png",
           type := "select", proxies := some defaultProxies },
    some { name := "📽️ 迪士尼+",
           icon := "https://gcore.jsdelivr.net/gh/Koolson/Qure@master/IconSet/Color/Disney.png",
           type := "select", proxies := some defaultProxies },
    some { name := "🎞️ Max",
           icon := "https://gcore.jsdelivr.net/gh/Koolson/Qure@master/IconSet/Color/HBO.png",
           type := "select", proxies := some defaultProxies },
    some { name := "🎬 Prime Video",
           icon := "https://gcore.jsdelivr.net/gh/Koolson/Qure@master/IconSet/Color/Prime.png",
           type := "select", proxies := some defaultProxies },
    some { name := "🍎 Apple TV+",
           icon := "https://gcore.jsdelivr.net/gh/Koolson/Qure@master/IconSet/Color/Apple.png",
           type := "select", proxies := some defaultProxies },
    some { name := "📹 油管视频",
           icon := "https://gcore.jsdelivr.net/gh/Koolson/Qure@master/IconSet/Color/YouTube.png",
           type := "select", proxies := some defaultProxies },
    some { name := "🎵 TikTok",
           icon := "https://gcore.jsdelivr.net/gh/Koolson/Qure@master/IconSet/Color/TikTok.png",
           type := "select", proxies := some defaultProxies },
    some { name := "📺 哔哩哔哩",
           icon := "https://gcore.jsdelivr.net/gh/Koolson/Qure@master/IconSet/Color/bilibili.png",
           type := "select",
           proxies := some (if hasTW && hasHK then [PROXY_GROUPS.DIRECT, "台湾节点", "香港节点"]
             else defaultProxiesDirect) },
    some { name := "🎶 Spotify",
           icon := "https://gcore.jsdelivr.net/gh/Koolson/Qure@master/IconSet/Color/Spotify.png",
           type := "select", proxies := some defaultProxies },
    some { name := "🌍 国外媒体",
           icon := "https://gcore.jsdelivr.net/gh/Koolson/Qure@master/IconSet/Color/GlobalMedia.png",
           type := "select", proxies := some defaultProxies },
    some { name := "🎮 游戏平台",
           icon := "https://gcore.jsdelivr.net/gh/Koolson/Qure@master/IconSet/Color/Game.png",
           type := "select", proxies := some defaultProxies },
    some { name := "🤖 AI 平台",
           icon := "https://gcore.jsdelivr.net/gh/hazicy/override-rules@master/icons/ChatGPT.png",
           type := "select", proxies := some defaultProxies },
    some { name := "📈 网络测试",
           icon := "https://gcore.jsdelivr.net/gh/Koolson/Qure@master/IconSet/Color/Speedtest.png",
           type := "select", proxies := some defaultProxies },
    some { name := "🧱 代理顶级域名",
           icon := "https://gcore.jsdelivr.net/gh/Koolson/Qure@master/IconSet/Color/Proxy.png",
           type := "select", proxies := some defaultProxies },
    some { name := "🧱 代理域名",
           icon := "https://gcore.jsdelivr.net/gh/Koolson/Qure@master/IconSet/Color/Proxy.png",
           type := "select", proxies := some defaultProxies },
    some { name := "🛡️ 直连域名",
           icon := "https://gcore.jsdelivr.net/gh/Koolson/Qure@master/IconSet/Color/Direct.png",
           type := "select", proxies := some [PROXY_GROUPS.DIRECT] },
    some { name := "🀄️ 直连 IP",
           icon := "https://gcore.jsdelivr.net/gh/Koolson/Qure@master/IconSet/Color/Direct.png",
           type := "select", proxies := some [PROXY_GROUPS.DIRECT] },
    some { name := "📲 电报消息",
           icon := "https://gcore.jsdelivr.net/gh/Koolson/Qure@master/IconSet/Color/Telegram.png",
           type := "select", proxies := some defaultProxies },
    some { name := PROXY_GROUPS.DIRECT,
           icon := "https://gcore.jsdelivr.net/gh/Koolson/Qure@master/IconSet/Color/Direct.png",
           type := "select", proxies := some ["DIRECT", PROXY_GROUPS.SELECT] },
    some { name := "🐟 漏网之鱼",
           icon := "https://gcore.jsdelivr.net/gh/Koolson/Qure@master/IconSet/Color/Final.png",
           type := "select", proxies := some defaultProxies },
    (if lowCost then some
      { name := PROXY_GROUPS.LOW_COST,
        icon := "https://gcore.jsdelivr.net/gh/Koolson/Qure@master/IconSet/Color/Lab.png",
        type := "url-test", url := some "https://cp.cloudflare.com/generate_204",
        includeAll := true,
        filter := some "(?i)0\\.[0-5]|低倍率|省流|大流量|实验性" }
      else none)]
  (fixedGroups ++ countryProxyGroups.map some).filterMap id

/-- The fixed base rule list of convert.js. -/
def baseRules : List String := [
  "RULE-SET,private,🔒 私有网络",
  "RULE-SET,ads,🛑 广告域名",
  "RULE-SET,trackerslist,📋 Trackerslist",
  "RULE-SET,applications,⬇️ 直连软件",
  "RULE-SET,microsoft-cn,🪟 微软服务",
  "RULE-SET,apple-cn,🍎 苹果服务",
  "RULE-SET,google-cn,🇬 谷歌服务",
  "RULE-SET,games-cn,🎮 游戏服务",
  "RULE-SET,netflix,🎥 奈飞视频",
  "RULE-SET,disney,📽️ 迪士尼+",
  "RULE-SET,max,🎞️ Max",
  "RULE-SET,primevideo,🎬 Prime Video",
  "RULE-SET,appletv,🍎 Apple TV+",
  "RULE-SET,youtube,📹 油管视频",
  "RULE-SET,tiktok,🎵 TikTok",
  "RULE-SET,bilibili,📺 哔哩哔哩",
  "RULE-SET,spotify,🎶 Spotify",
  "RULE-SET,media,🌍 国外媒体",
  "RULE-SET,games,🎮 游戏平台",
  "RULE-SET,ai,🤖 AI 平台",
  "RULE-SET,networktest,📈 网络测试",
  "RULE-SET,tld-proxy,🧱 代理顶级域名",
  "RULE-SET,gfw,🧱 代理域名",
  "RULE-SET,cn,🛡️ 直连域名",
  "RULE-SET,privateip,🔒 私有网络,no-resolve",
  "RULE-SET,cnip,🀄️ 直连 IP",
  "RULE-SET,netflixip,🎥 奈飞视频",
  "RULE-SET,mediaip,🌍 国外媒体",
  "RULE-SET,gamesip,🎮 游戏平台",
  "RULE-SET,telegramip,📲 电报消息,no-resolve",
  "MATCH,🐟 漏网之鱼"]

/-- buildRules from convert.js: a copy of the base rules, with the rule
blocking UDP 443 (QUIC) prepended when quic is not enabled. -/
def buildRules (quicEnabled : Bool) : List String :=
  let ruleList := baseRules
  if !quicEnabled then "AND,((DST-PORT,443),(NETWORK,UDP)),REJECT" :: ruleList else ruleList

/-- A catch-all rule entry: its matcher is MATCH. -/
def isMatchRule (rule : String) : Bool := "MATCH,".data.isPrefixOf rule.data

/-- The static sniffer configuration. -/
structure SnifferConfig where
  sniffTLSPorts : List Nat
  sniffHTTPPorts : List Nat
  sniffQUICPorts : List Nat
  overrideDestination : Bool
  enable : Bool
  forceDnsMapping : Bool
  skipDomain : List String
  deriving Repr, DecidableEq

def snifferConfig : SnifferConfig :=
  { sniffTLSPorts := [443, 8443]
    sniffHTTPPorts := [80, 8080, 8880]
    sniffQUICPorts := [443, 8443]
    overrideDestination := false
    enable := true
    forceDnsMapping := true
    skipDomain := ["Mijia Cloud", "dlg.io.mi.com", "+.push.apple.com"] }

/-- A DNS configuration as buildDnsConfig constructs one. -/
structure DnsConfig where
  enable : Bool
  ipv6 : Bool
  preferH3 : Bool
  enhancedMode : String
  defaultNameserver : List String
  nameserver : List String
  fallback : List String
  proxyServerNameserver : List String
  fakeIpFilter : Option (List String) := none
  deriving Repr, DecidableEq

/-- buildDnsConfig from convert.js; the script reads the module-level
ipv6Enabled flag, passed explicitly here. -/
def buildDnsConfig (ipv6Enabled : Bool) (mode : String)
    (fakeIpFilter : Option (List String)) : DnsConfig :=
  { enable := true
    ipv6 := ipv6Enabled
    preferH3 := true
    enhancedMode := mode
    defaultNameserver := ["119.29.29.29", "223.5.5.5"]
    nameserver := ["system", "223.5.5.5", "119.29.29.29", "180.184.1.1"]
    fallback := ["quic://dns0.eu", "https://dns.cloudflare.com/dns-query",
      "https://dns.sb/dns-query", "tcp://208.67.222.222", "tcp://8.26.56.2"]
    proxyServerNameserver := ["https://dns.alidns.com/dns-query", "tls://dot.pub"]
    fakeIpFilter := fakeIpFilter }

def dnsConfig (ipv6Enabled : Bool) : DnsConfig :=
  buildDnsConfig ipv6Enabled "redir-host" none

def dnsConfigFakeIp (ipv6Enabled : Bool) : DnsConfig :=
  buildDnsConfig ipv6Enabled "fake-ip" (some ["geosite:private", "geosite:connectivity-check",
    "geosite:cn", "Mijia Cloud", "dig.io.mi.com", "localhost.ptlogin2.qq.com",
    "*.icloud.com", "*.stun.*.*", "*.stun.*.*.*"])

structure GeoxURL where
  geoip : String
  geosite : String
  mmdb : String
  asn : String
  deriving Repr, DecidableEq

def geoxURL : GeoxURL :=
  { geoip := "https://gcore.jsdelivr.net/gh/Loyalsoldier/v2ray-rules-dat@release/geoip.dat"
    geosite := "https://gcore.jsdelivr.net/gh/Loyalsoldier/v2ray-rules-dat@release/geosite.dat"
    mmdb := "https://gcore.jsdelivr.net/gh/Loyalsoldier/geoip@release/Country.mmdb"
    asn := "https://gcore.jsdelivr.net/gh/Loyalsoldier/geoip@release/GeoLite2-ASN.mmdb" }

/-- A remote rule-list source. -/
structure RuleProvider where
  type : String
  behavior : String
  format : String
  path : String
  url : String
  interval : Nat
  deriving Repr, DecidableEq

/-- The static rule-provider catalog of convert.js, in source order. -/
def ruleProviders : List (String × RuleProvider) := [
  ("fakeip-filter", { type := "http", behavior := "domain", format := "mrs", path := "./ruleset/fakeip-filter.mrs", url := "https://github.com/DustinWin/ruleset_geodata/releases/download/mihomo-ruleset/fakeip-filter.mrs", interval := 86400 }),
  ("private", { type := "http", behavior := "domain", format := "mrs", path := "./ruleset/private.mrs", url := "https://github.com/DustinWin/ruleset_geodata/releases/download/mihomo-ruleset/private.mrs", interval := 86400 }),
  ("ads", { type := "http", behavior := "domain", format := "mrs", path := "./ruleset/ads.mrs", url := "https://github.com/DustinWin/ruleset_geodata/releases/download/mihomo-ruleset/ads.mrs", interval := 86400 }),
  ("trackerslist", { type := "http", behavior := "domain", format := "mrs", path := "./ruleset/trackerslist.mrs", url := "https://github.com/DustinWin/ruleset_geodata/releases/download/mihomo-ruleset/trackerslist.mrs", interval := 86400 }),
  ("applications", { type := "http", behavior := "classical", format := "text", path := "./ruleset/applications.list", url := "https://github.com/DustinWin/ruleset_geodata/releases/download/mihomo-ruleset/applications.list", interval := 86400 }),
  ("microsoft-cn", { type := "http", behavior := "domain", format := "mrs", path := "./ruleset/microsoft-cn.mrs", url := "https://github.com/DustinWin/ruleset_geodata/releases/download/mihomo-ruleset/microsoft-cn.mrs", interval := 86400 }),
  ("apple-cn", { type := "http", behavior := "domain", format := "mrs", path := "./ruleset/apple-cn.mrs", url := "https://github.com/DustinWin/ruleset_geodata/releases/download/mihomo-ruleset/apple-cn.mrs", interval := 86400 }),
  ("google-cn", { type := "http", behavior := "domain", format := "mrs", path := "./ruleset/google-cn.mrs", url := "https://github.com/DustinWin/ruleset_geodata/releases/download/mihomo-ruleset/google-cn.mrs", interval := 86400 }),
  ("games-cn", { type := "http", behavior := "domain", format := "mrs", path := "./ruleset/games-cn.mrs", url := "https://github.com/DustinWin/ruleset_geodata/releases/download/mihomo-ruleset/games-cn.mrs", interval := 86400 }),
  ("netflix", { type := "http", behavior := "domain", format := "mrs", path := "./ruleset/netflix.mrs", url := "https://github.com/DustinWin/ruleset_geodata/releases/download/mihomo-ruleset/netflix.mrs", interval := 86400 }),
  ("disney", { type := "http", behavior := "domain", format := "mrs", path := "./ruleset/disney.mrs", url := "https://github.com/DustinWin/ruleset_geodata/releases/download/mihomo-ruleset/disney.mrs", interval := 86400 }),
  ("max", { type := "http", behavior := "domain", format := "mrs", path := "./ruleset/max.mrs", url := "https://github.com/DustinWin/ruleset_geodata/releases/download/mihomo-ruleset/max.mrs", interval := 86400 }),
  ("primevideo", { type := "http", behavior := "domain", format := "mrs", path := "./ruleset/primevideo.mrs", url := "https://github.com/DustinWin/ruleset_geodata/releases/download/mihomo-ruleset/primevideo.mrs", interval := 86400 }),
  ("appletv", { type := "http", behavior := "domain", format := "mrs", path := "./ruleset/appletv.mrs", url := "https://github.com/DustinWin/ruleset_geodata/releases/download/mihomo-ruleset/appletv.mrs", interval := 86400 }),
  ("youtube", { type := "http", behavior := "domain", format := "mrs", path := "./ruleset/youtube.mrs", url := "https://github.com/DustinWin/ruleset_geodata/releases/download/mihomo-ruleset/youtube.mrs", interval := 86400 }),
  ("tiktok", { type := "http", behavior := "domain", format := "mrs", path := "./ruleset/tiktok.mrs", url := "https://github.com/DustinWin/ruleset_geodata/releases/download/mihomo-ruleset/tiktok.mrs", interval := 86400 }),
  ("bilibili", { type := "http", behavior := "domain", format := "mrs", path := "./ruleset/bilibili.mrs", url := "https://github.com/DustinWin/ruleset_geodata/releases/download/mihomo-ruleset/bilibili.mrs", interval := 86400 }),
  ("spotify", { type := "http", behavior := "domain", format := "mrs", path := "./ruleset/spotify.mrs", url := "https://github.com/DustinWin/ruleset_geodata/releases/download/mihomo-ruleset/spotify.mrs", interval := 86400 }),
  ("media", { type := "http", behavior := "domain", format := "mrs", path := "./ruleset/media.mrs", url := "https://github.com/DustinWin/ruleset_geodata/releases/download/mihomo-ruleset/media.mrs", interval := 86400 }),
  ("games", { type := "http", behavior := "domain", format := "mrs", path := "./ruleset/games.mrs", url := "https://github.com/DustinWin/ruleset_geodata/releases/download/mihomo-ruleset/games.mrs", interval := 86400 }),
  ("ai", { type := "http", behavior := "domain", format := "mrs", path := "./ruleset/ai.mrs", url := "https://github.com/DustinWin/ruleset_geodata/releases/download/mihomo-ruleset/ai.mrs", interval := 86400 }),
  ("networktest", { type := "http", behavior := "domain", format := "mrs", path := "./ruleset/networktest.mrs", url := "https://github.com/DustinWin/ruleset_geodata/releases/download/mihomo-ruleset/networktest.mrs", interval := 86400 }),
  ("tld-proxy", { type := "http", behavior := "domain", format := "mrs", path := "./ruleset/tld-proxy.mrs", url := "https://github.com/DustinWin/ruleset_geodata/releases/download/mihomo-ruleset/tld-proxy.mrs", interval := 86400 }),
  ("gfw", { type := "http", behavior := "domain", format := "mrs", path := "./ruleset/gfw.mrs", url := "https://github.com/DustinWin/ruleset_geodata/releases/download/mihomo-ruleset/gfw.mrs", interval := 86400 }),
  ("cn", { type := "http", behavior := "domain", format := "mrs", path := "./ruleset/cn.mrs", url := "https://github.com/DustinWin/ruleset_geodata/releases/download/mihomo-ruleset/cn.mrs", interval := 86400 }),
  ("privateip", { type := "http", behavior := "ipcidr", format := "mrs", path := "./ruleset/privateip.mrs", url := "https://github.com/DustinWin/ruleset_geodata/releases/download/mihomo-ruleset/privateip.mrs", interval := 86400 }),
  ("cnip", { type := "http", behavior := "ipcidr", format := "mrs", path := "./ruleset/cnip.mrs", url := "https://github.com/DustinWin/ruleset_geodata/releases/download/mihomo-ruleset/cnip.mrs", interval := 86400 }),
  ("netflixip", { type := "http", behavior := "ipcidr", format := "mrs", path := "./ruleset/netflixip.mrs", url := "https://github.com/DustinWin/ruleset_geodata/releases/download/mihomo-ruleset/netflixip.mrs", interval := 86400 }),
  ("mediaip", { type := "http", behavior := "ipcidr", format := "mrs", path := "./ruleset/mediaip.mrs", url := "https://github.com/DustinWin/ruleset_geodata/releases/download/mihomo-ruleset/mediaip.mrs", interval := 86400 }),
  ("gamesip", { type := "http", behavior := "ipcidr", format := "mrs", path := "./ruleset/gamesip.mrs", url := "https://github.com/DustinWin/ruleset_geodata/releases/download/mihomo-ruleset/gamesip.mrs", interval := 86400 }),
  ("telegramip", { type := "http", behavior := "ipcidr", format := "mrs", path := "./ruleset/telegramip.mrs", url := "https://github.com/DustinWin/ruleset_geodata/releases/download/mihomo-ruleset/telegramip.mrs", interval := 86400 })]

/-- The output configuration object: the input proxies plus the injected
fields; the network/daemon fields are set only when fullConfig is on. -/
structure ResultConfig where
  proxies : Option (List Proxy)
  mixedPort : Option Nat := none
  redirPort : Option Nat := none
  tproxyPort : Option Nat := none
  routingMark : Option Nat := none
  allowLan : Option Bool := none
  ipv6 : Option Bool := none
  mode : Option String := none
  unifiedDelay : Option Bool := none
  tcpConcurrent : Option Bool := none
  findProcessMode : Option String := none
  logLevel : Option String := none
  geodataLoader : Option String := none
  externalController : Option String := none
  disableKeepAlive : Option Bool := none
  profileStoreSelected : Option Bool := none
  proxyGroups : List ProxyGroup := []
  ruleProviders : List (String × RuleProvider) := []
  rules : List String := []
  sniffer : Option SnifferConfig := none
  dns : Option DnsConfig := none
  geodataMode : Option Bool := none
  geoxUrl : Option GeoxURL := none
  deriving Repr, DecidableEq

/-- main from convert.js: classify, build the lists, pools and group graph,
append the synthesized GLOBAL group whose members are every previously built
group's name, build the rules, and assemble the output object. The script's
module-level flags are taken as an explicit argument. -/
def main (flags : FeatureFlags) (config : ClashConfig) : ResultConfig :=
  let resultConfig : ClashConfig := { proxies := config.proxies }
  let countryInfo := parseCountries resultConfig
  let lowCost := hasLowCost resultConfig
  let countryGroupNames := getCountryGroupNames countryInfo flags.countryThreshold
  let countries := stripNodeSuffix countryGroupNames
  let lists := buildBaseLists flags.landing lowCost countryGroupNames
  let countryProxyGroups := buildCountryProxyGroups countries flags.landing flags.loadBalance
  let proxyGroups := buildProxyGroups flags.landing countries countryProxyGroups lowCost
    lists.defaultProxies lists.defaultProxiesDirect lists.defaultSelector lists.defaultFallback
  let globalProxies := proxyGroups.map (fun item => item.name)
  let proxyGroups := proxyGroups ++ [{
    name := "GLOBAL",
    icon := "https://gcore.jsdelivr.net/gh/Koolson/Qure@master/IconSet/Color/Global.png",
    includeAll := true,
    type := "select",
    proxies := some globalProxies }]
  let finalRules := buildRules flags.quicEnabled
  { proxies := resultConfig.proxies
    mixedPort := if flags.fullConfig then some 7890 else none
    redirPort := if flags.fullConfig then some 7892 else none
    tproxyPort := if flags.fullConfig then some 7893 else none
    routingMark := if flags.fullConfig then some 7894 else none
    allowLan := if flags.fullConfig then some true else none
    ipv6 := if flags.fullConfig then some flags.ipv6Enabled else none
    mode := if flags.fullConfig then some "rule" else none
    unifiedDelay := if flags.fullConfig then some true else none
    tcpConcurrent := if flags.fullConfig then some true else none
    findProcessMode := if flags.fullConfig then some "off" else none
    logLevel := if flags.fullConfig then some "info" else none
    geodataLoader := if flags.fullConfig then some "standard" else none
    externalController := if flags.fullConfig then some ":9999" else none
    disableKeepAlive := if flags.fullConfig then some (!flags.keepAliveEnabled) else none
    profileStoreSelected := if flags.fullConfig then some true else none
    proxyGroups := proxyGroups
    ruleProviders := ruleProviders
    rules := finalRules
    sniffer := some snifferConfig
    dns := some (if flags.fakeIPEnabled then dnsConfigFakeIp flags.ipv6Enabled
      else dnsConfig flags.ipv6Enabled)
    geodataMode := some true
    geoxUrl := some geoxURL }

/-- The first group of a list carrying a given name, as a member reference
lookup resolves it. -/
def findGroup (groups : List ProxyGroup) (name : String) : Option ProxyGroup :=
  groups.find? (fun g => g.name == name)

/-! ## Lemmas about the classifier -/

lemma find_first_filter {α : Type} (p : α → Bool) (l : List α) :
    l.find? p = (l.filter p).head? := by
  induction l with
  | nil => rfl
  | cons a l ih =>
    cases h : p a
    · rw [List.find?_cons_of_neg _ (by simp [h]), List.filter_cons, if_neg (by simp [h]), ih]
    · rw [List.find?_cons_of_pos _ h, List.filter_cons, if_pos h, List.head?_cons]

lemma firstMatchingRegion_eq_head (name : String) :
    firstMatchingRegion name = (matchingRegions name).head? := by
  rw [firstMatchingRegion, matchingRegions, find_first_filter, List.head?_map]

lemma regionCountOf_nil (x : String) : regionCountOf [] x = 0 := rfl

lemma regionCountOf_cons (e : RegionCount) (rest : List RegionCount) (x : String) :
    regionCountOf (e :: rest) x =
      if e.country = x then e.count else regionCountOf rest x := by
  by_cases h : e.country = x
  · simp [regionCountOf, List.find?_cons, beq_iff_eq.mpr h, h]
  · simp [regionCountOf, List.find?_cons, beq_eq_false_iff_ne.mpr h, h]

lemma regionCountOf_bump (info : List RegionCount) (c x : String) :
    regionCountOf (bump info c) x =
      if x = c then regionCountOf info x + 1 else regionCountOf info x := by
  induction info with
  | nil =>
    by_cases h : x = c
    · subst h; simp [bump, regionCountOf_cons, regionCountOf_nil]
    · have hcx : ¬ c = x := fun hh => h hh.symm
      simp [bump, regionCountOf_cons, regionCountOf_nil, h, hcx]
  | cons e rest ih =>
    simp only [bump]
    by_cases he : e.country = c
    · rw [if_pos he, regionCountOf_cons, regionCountOf_cons]
      by_cases hex : e.country = x
      · have hxc : x = c := hex.symm.trans he
        simp [hex, hxc]
      · have hxc : ¬ x = c := fun hh => hex (he.trans hh.symm)
        simp [hex, hxc]
    · rw [if_neg he, regionCountOf_cons, regionCountOf_cons]
      by_cases hex : e.country = x
      · have hxc : ¬ x = c := fun hh => he (hex.trans hh)
        simp [hex, hxc]
      · simp [hex, ih]

lemma classifyOne_isp (counts : List RegionCount) (p : Proxy)
    (h : ispTest p.name = true) : classifyOne counts p = counts := by
  simp [classifyOne, h]

lemma classifyOne_first (counts : List RegionCount) (p : Proxy) (c : String)
    (hisp : ispTest p.name = false) (hc : firstMatchingRegion p.name = some c) :
    classifyOne counts p = bump counts c := by
  obtain ⟨e, he, hfst⟩ := Option.map_eq_some'.mp hc
  simp [classifyOne, hisp, he, hfst]

lemma parseCountries_concat (ps : List Proxy) (p : Proxy) :
    parseCountries ⟨some (ps ++ [p])⟩ = classifyOne (parseCountries ⟨some ps⟩) p := by
  simp [parseCountries, List.foldl_append]

/-- C3: for a proxy whose name does not match the ISP exclusion pattern,
classification counts it for the first region of the catalog whose pattern
matches the name (the head of the catalog-ordered match list): adding such a
proxy raises exactly that region's count by one and leaves every other
region's count unchanged. In particular a proxy whose name matches exactly
one region pattern is counted for exactly that region. -/
theorem classification_first_match (ps : List Proxy) (p : Proxy) (c x : String)
    (hisp : ispTest p.name = false)
    (hfirst : (matchingRegions p.name).head? = some c)
    (hx : x ≠ c) :
    firstMatchingRegion p.name = some c ∧
    regionCountOf (parseCountries ⟨some (ps ++ [p])⟩) c
      = regionCountOf (parseCountries ⟨some ps⟩) c + 1 ∧
    regionCountOf (parseCountries ⟨some (ps ++ [p])⟩) x
      = regionCountOf (parseCountries ⟨some ps⟩) x := by
  have h1 : firstMatchingRegion p.name = some c := by
    rw [firstMatchingRegion_eq_head]; exact hfirst
  refine ⟨h1, ?_, ?_⟩ <;>
    rw [parseCountries_concat, classifyOne_first _ _ _ hisp h1, regionCountOf_bump] <;>
    simp [hx]

/-- Witness for C3: "US-01 美国" matches exactly the region 美国 of the
catalog, is not ISP-excluded, and its arrival raises 美国's count from 0 to 1
while leaving 香港's count (1, from "HK-01 香港") unchanged. -/
theorem classification_first_match_witness :
    firstMatchingRegion "US-01 美国" = some "美国" ∧
    regionCountOf (parseCountries ⟨some ([⟨"HK-01 香港"⟩] ++ [⟨"US-01 美国"⟩])⟩) "美国"
      = regionCountOf (parseCountries ⟨some [⟨"HK-01 香港"⟩]⟩) "美国" + 1 ∧
    regionCountOf (parseCountries ⟨some ([⟨"HK-01 香港"⟩] ++ [⟨"US-01 美国"⟩])⟩) "香港"
      = regionCountOf (parseCountries ⟨some [⟨"HK-01 香港"⟩]⟩) "香港" :=
  classification_first_match [⟨"HK-01 香港"⟩] ⟨"US-01 美国"⟩ "美国" "香港"
    (by decide) (by decide) (by decide)

/-- C4: a proxy whose name matches the ISP/landing exclusion pattern
contributes to no region count at all (the classification result is
unchanged by its arrival, whatever region patterns the name also matches);
the cost-tier predicate still sees the proxy, independently of the
exclusion; and an absent or empty proxy list yields an empty region-count
list and cost tier false. -/
theorem isp_excluded_no_region (ps : List Proxy) (p : Proxy)
    (h : ispTest p.name = true) :
    parseCountries ⟨some (ps ++ [p])⟩ = parseCountries ⟨some ps⟩ ∧
    hasLowCost ⟨some (ps ++ [p])⟩ = (hasLowCost ⟨some ps⟩ || lowCostTest p.name) ∧
    parseCountries ⟨none⟩ = [] ∧ hasLowCost ⟨none⟩ = false ∧
    parseCountries ⟨some []⟩ = [] ∧ hasLowCost ⟨some []⟩ = false := by
  refine ⟨?_, ?_, rfl, rfl, rfl, rfl⟩
  · rw [parseCountries_concat, classifyOne_isp _ _ h]
  · simp [hasLowCost]

/-- Witness for C4: "香港 0.3 家宽" matches the ISP exclusion pattern (家宽)
and the 香港 region pattern, yet the region counts after adding it equal the
counts before; it still turns the cost tier on (0.3 matches the low-cost
pattern). -/
theorem isp_excluded_no_region_witness :
    parseCountries ⟨some ([⟨"HK-01 香港"⟩] ++ [⟨"香港 0.3 家宽"⟩])⟩
      = parseCountries ⟨some [⟨"HK-01 香港"⟩]⟩ ∧
    hasLowCost ⟨some ([⟨"HK-01 香港"⟩] ++ [⟨"香港 0.3 家宽"⟩])⟩
      = (hasLowCost ⟨some [⟨"HK-01 香港"⟩]⟩ || lowCostTest "香港 0.3 家宽") ∧
    parseCountries ⟨none⟩ = [] ∧ hasLowCost ⟨none⟩ = false ∧
    parseCountries ⟨some []⟩ = [] ∧ hasLowCost ⟨some []⟩ = false :=
  isp_excluded_no_region [⟨"HK-01 香港"⟩] ⟨"香港 0.3 家宽"⟩ (by decide)

/-! ## Lemmas about lists of member references -/

lemma contains_filter_false {α : Type} [BEq α] [LawfulBEq α] (l : List α) (q : α → Bool)
    (a : α) (h : q a = false) : (l.filter q).contains a = false := by
  induction l with
  | nil => rfl
  | cons x xs ih =>
    rw [List.filter_cons]
    by_cases hax : a = x
    · subst hax; simp [h, ih]
    · cases hqx : q x
      · simp [ih, h]
      · simp [List.contains_cons, beq_eq_false_iff_ne.mpr hax, ih, h]

/-- C1: with the landing feature on, the front-proxy hub 前置代理 is emitted
and its member list is exactly the top-level selector list (defaultSelector)
with the landing hub 落地节点 and the fallback hub 故障转移 filtered out; in
particular neither of those two names appears among its members. -/
theorem front_proxy_cycle_break (countries : List String) (cpg : List ProxyGroup)
    (lowCost : Bool) (dp dpd dsel dfb : List String) :
    findGroup (buildProxyGroups true countries cpg lowCost dp dpd dsel dfb) "前置代理" =
      some { name := "前置代理",
             icon := "https://gcore.jsdelivr.net/gh/Koolson/Qure@master/IconSet/Color/Area.png",
             type := "select", includeAll := true,
             excludeFilter := some "(?i)家宽|家庭|家庭宽带|商宽|商业宽带|星链|Starlink|落地",
             proxies := some (dsel.filter (fun n =>
               !(n == PROXY_GROUPS.LANDING) && !(n == PROXY_GROUPS.FALLBACK))) } ∧
    (dsel.filter (fun n =>
      !(n == PROXY_GROUPS.LANDING) && !(n == PROXY_GROUPS.FALLBACK))).contains
        PROXY_GROUPS.LANDING = false ∧
    (dsel.filter (fun n =>
      !(n == PROXY_GROUPS.LANDING) && !(n == PROXY_GROUPS.FALLBACK))).contains
        PROXY_GROUPS.FALLBACK = false := by
  refine ⟨?_, contains_filter_false _ _ _ (by decide), contains_filter_false _ _ _ (by decide)⟩
  simp [buildProxyGroups, findGroup, PROXY_GROUPS.SELECT, PROXY_GROUPS.MANUAL,
    PROXY_GROUPS.LANDING, PROXY_GROUPS.FALLBACK, List.find?]

/-- C6: the rule list is the fixed base list with the UDP-443 (QUIC)
blocking rule prepended exactly when quic is off: with quic off the blocking
rule is the head and the rest is the base list in base order, with quic on
the blocking rule is absent; in both cases exactly one catch-all MATCH entry
exists and it is the last entry. main's rules field is exactly this list. -/
theorem rules_quic_spec :
    (∀ flags : FeatureFlags, ∀ config : ClashConfig,
      (main flags config).rules = buildRules flags.quicEnabled) ∧
    buildRules false = "AND,((DST-PORT,443),(NETWORK,UDP)),REJECT" :: baseRules ∧
    buildRules true = baseRules ∧
    (buildRules true).contains "AND,((DST-PORT,443),(NETWORK,UDP)),REJECT" = false ∧
    (buildRules false).filter isMatchRule = ["MATCH,🐟 漏网之鱼"] ∧
    (buildRules true).filter isMatchRule = ["MATCH,🐟 漏网之鱼"] ∧
    (buildRules false).getLast? = some "MATCH,🐟 漏网之鱼" ∧
    (buildRules true).getLast? = some "MATCH,🐟 漏网之鱼" :=
  ⟨fun _ _ => rfl, rfl, rfl, by decide, by decide, by decide, by decide, by decide⟩

/-- C7: region visibility is antitone in the threshold: every region group
name produced at a threshold t2 ≥ t1 is also produced at threshold t1, so
raising the threshold never adds a region that the lower threshold excluded. -/
theorem threshold_antitone (countryInfo : List RegionCount) (t1 t2 : Int) (h : t1 ≤ t2) :
    (getCountryGroupNames countryInfo t2).all
      (fun n => (getCountryGroupNames countryInfo t1).contains n) = true := by
  rw [List.all_eq_true]
  intro n hn
  simp only [getCountryGroupNames, List.mem_map, List.mem_filter] at hn
  obtain ⟨i, ⟨hmem, hp⟩, rfl⟩ := hn
  rw [decide_eq_true_iff] at hp
  exact List.elem_eq_true_of_mem (by
    simp only [getCountryGroupNames, List.mem_map, List.mem_filter]
    exact ⟨i, ⟨hmem, decide_eq_true_iff.mpr (le_trans h hp)⟩, rfl⟩)

/-- Witness for C7: with counts 香港 = 1 and 美国 = 2, every group name
produced at threshold 2 is also produced at threshold 1. -/
theorem threshold_antitone_witness :
    (getCountryGroupNames [⟨"香港", 1⟩, ⟨"美国", 2⟩] 2).all
      (fun n => (getCountryGroupNames [⟨"香港", 1⟩, ⟨"美国", 2⟩] 1).contains n) = true :=
  threshold_antitone [⟨"香港", 1⟩, ⟨"美国", 2⟩] 1 2 (by decide)

/-- C8: synthesis is deterministic: main is a pure function of the flags and
the input configuration, so two runs on structurally identical inputs give
structurally identical output objects (groups, rules and injected fields
included). -/
theorem main_deterministic (f1 f2 : FeatureFlags) (c1 c2 : ClashConfig)
    (hf : f1 = f2) (hc : c1 = c2) : main f1 c1 = main f2 c2 := by
  rw [hf, hc]

/-- Witness for C8: two runs on one concrete input agree. -/
theorem main_deterministic_witness :
    main ⟨false, true, false, false, false, false, false, 0⟩ ⟨some [⟨"HK-01 香港"⟩]⟩ =
      main ⟨false, true, false, false, false, false, false, 0⟩ ⟨some [⟨"HK-01 香港"⟩]⟩ :=
  main_deterministic _ _ _ _ rfl rfl

/-- C10: the boolean flag parser returns false on every value that is
neither a boolean nor a string (numbers such as 1, null, undefined), so the
feature stays disabled; a flag is enabled only by the boolean true, the
string "true" in any letter case, or the exact string "1". buildFeatureFlags
applies this parser to every boolean parameter, so e.g. the number 1 leaves
landing disabled. -/
theorem parse_bool_nonbool_nonstring :
    (∀ n : Int, parseBool (JSValue.vNum n) = false) ∧
    parseBool JSValue.vNull = false ∧
    parseBool JSValue.vUndefined = false ∧
    (∀ b : Bool, parseBool (JSValue.vBool b) = b) ∧
    (∀ s : String, parseBool (JSValue.vStr s) = (jsToLower s == "true" || s == "1")) ∧
    parseBool (JSValue.vStr "TRUE") = true ∧
    parseBool (JSValue.vStr "1") = true ∧
    parseBool (JSValue.vStr "yes") = false ∧
    parseBool (JSValue.vStr "01") = false ∧
    (∀ args : RawArgs, (buildFeatureFlags args).landing = parseBool args.landing) ∧
    (buildFeatureFlags ⟨JSValue.vNum 1, JSValue.vNum 1, JSValue.vNum 1, JSValue.vNum 1,
      JSValue.vNum 1, JSValue.vNum 1, JSValue.vNum 1, JSValue.vNum 1⟩).landing = false :=
  ⟨fun _ => rfl, rfl, rfl, fun _ => rfl, fun _ => rfl, by decide, by decide, by decide,
    by decide, fun args => by simp [buildFeatureFlags], by decide⟩

/-! ## Lemmas about the region pool groups -/

lemma string_append_cancel {a b t : String} (h : a ++ t = b ++ t) : a = b := by
  apply String.ext
  have hd := congrArg String.data h
  rw [String.data_append, String.data_append] at hd
  exact List.append_cancel_right hd

/-- C5: every region pool group is a load-balance group when the loadBalance
flag is on and a url-test group otherwise; its filter is the region's match
pattern; its exclude-filter is always the low-cost pattern and additionally
the landing/ISP keyword pattern exactly when the landing flag is on; and a
url-test pool carries the health-check URL, an interval of 60, a tolerance
of 20 and lazy set to false. -/
theorem country_pool_spec (countries : List String) (landing loadBalance : Bool)
    (c : String) (m : CountryMeta)
    (hmem : c ∈ countries)
    (hmeta : countriesMeta.find? (fun e => e.1 == c) = some (c, m)) :
    findGroup (buildCountryProxyGroups countries landing loadBalance) (c ++ NODE_SUFFIX) =
      some { name := c ++ NODE_SUFFIX, icon := m.icon, includeAll := true,
             filter := some m.pattern,
             excludeFilter := some (if landing then
               landingExcludeFilter ++ "|" ++ baseExcludeFilter else baseExcludeFilter),
             type := if loadBalance then "load-balance" else "url-test",
             url := if loadBalance then none
               else some "https://cp.cloudflare.com/generate_204",
             interval := if loadBalance then none else some 60,
             tolerance := if loadBalance then none else some 20,
             lazy := if loadBalance then none else some false } := by
  induction countries with
  | nil => cases hmem
  | cons d rest ih =>
    simp only [buildCountryProxyGroups, List.filterMap_cons]
    by_cases hdc : d = c
    · subst hdc
      rw [hmeta]
      simp [findGroup, List.find?_cons]
    · have hmem2 : c ∈ rest := List.mem_of_ne_of_mem (fun hh => hdc hh.symm) hmem
      cases hfind : countriesMeta.find? (fun e => e.1 == d) with
      | none => exact ih hmem2
      | some e =>
        have hname : (d ++ NODE_SUFFIX == c ++ NODE_SUFFIX) = false :=
          beq_eq_false_iff_ne.mpr (fun hh => hdc (string_append_cancel hh))
        have hrec := ih hmem2
        simp only [buildCountryProxyGroups, findGroup] at hrec
        simpa [findGroup, List.find?_cons, hname] using hrec

/-- Witness for C5: the pool group for 香港 with both flags off is a
url-test group with the 香港 pattern as filter, the low-cost exclude-filter,
and the health-check fields with lazy false. -/
theorem country_pool_spec_witness :
    findGroup (buildCountryProxyGroups ["香港"] false false) ("香港" ++ NODE_SUFFIX) =
      some { name := "香港" ++ NODE_SUFFIX,
             icon := "https://gcore.jsdelivr.net/gh/Koolson/Qure@master/IconSet/Color/Hong_Kong.png",
             includeAll := true,
             filter := some "香港|港|HK|hk|Hong Kong|HongKong|hongkong|🇭🇰",
             excludeFilter := some baseExcludeFilter,
             type := "url-test",
             url := some "https://cp.cloudflare.com/generate_204",
             interval := some 60, tolerance := some 20, lazy := some false } :=
  country_pool_spec ["香港"] false false "香港"
    ⟨"香港|港|HK|hk|Hong Kong|HongKong|hongkong|🇭🇰",
     "https://gcore.jsdelivr.net/gh/Koolson/Qure@master/IconSet/Color/Hong_Kong.png"⟩
    (by decide) (by decide)

/-! ## Lemmas about the assembled group graph -/

lemma contains_append {α : Type} [BEq α] (l1 l2 : List α) (a : α) :
    (l1 ++ l2).contains a = (l1.contains a || l2.contains a) := by
  induction l1 with
  | nil => simp
  | cons x xs ih => simp [List.contains_cons, ih, Bool.or_assoc]

lemma contains_eq_false_of_not_mem {α : Type} [BEq α] [LawfulBEq α] {l : List α} {a : α}
    (h : a ∉ l) : l.contains a = false := by
  cases hc : l.contains a
  · rfl
  · exact absurd (List.mem_of_elem_eq_true hc) h

lemma append_node_suffix_ne_global (s : String) : s ++ NODE_SUFFIX ≠ "GLOBAL" := by
  intro h
  have hd : s.data ++ NODE_SUFFIX.data = "GLOBAL".data := by
    rw [← String.data_append, h]
  have h2 : (s.data ++ NODE_SUFFIX.data).getLast? = ("GLOBAL".data).getLast? :=
    congrArg List.getLast? hd
  rw [show NODE_SUFFIX.data = ['节', '点'] from rfl] at h2
  rw [show s.data ++ ['节', '点'] = (s.data ++ ['节']) ++ ['点'] from
    (List.append_assoc s.data ['节'] ['点']).symm] at h2
  rw [List.getLast?_concat] at h2
  exact absurd h2 (by decide)

lemma name_of_mem_buildCountryProxyGroups {cs : List String} {landing lb : Bool}
    {g : ProxyGroup} (hg : g ∈ buildCountryProxyGroups cs landing lb) :
    ∃ c, g.name = c ++ NODE_SUFFIX := by
  rw [buildCountryProxyGroups, List.mem_filterMap] at hg
  obtain ⟨c, _, hsome⟩ := hg
  cases hfind : countriesMeta.find? (fun e => e.1 == c) with
  | none => rw [hfind] at hsome; simp at hsome
  | some e =>
    rw [hfind] at hsome
    simp only [Option.some.injEq] at hsome
    exact ⟨c, by rw [← hsome]⟩

lemma buildProxyGroups_names (landing : Bool) (cs : List String) (cpg : List ProxyGroup)
    (lc : Bool) (a b d e : List String) :
    (buildProxyGroups landing cs cpg lc a b d e).map ProxyGroup.name =
      ["选择代理", "手动选择"] ++ (if landing then ["前置代理", "落地节点"] else []) ++
      ["故障转移", "🔒 私有网络", "🛑 广告域名", "📋 Trackerslist", "⬇️ 直连软件",
       "🪟 微软服务", "🍎 苹果服务", "🇬 谷歌服务", "🎮 游戏服务", "🎥 奈飞视频",
       "📽️ 迪士尼+", "🎞️ Max", "🎬 Prime Video", "🍎 Apple TV+", "📹 油管视频",
       "🎵 TikTok", "📺 哔哩哔哩", "🎶 Spotify", "🌍 国外媒体", "🎮 游戏平台",
       "🤖 AI 平台", "📈 网络测试", "🧱 代理顶级域名", "🧱 代理域名", "🛡️ 直连域名",
       "🀄️ 直连 IP", "📲 电报消息", "直连", "🐟 漏网之鱼"] ++
      (if lc then ["低倍率节点"] else []) ++ cpg.map ProxyGroup.name := by
  cases landing <;> cases lc <;>
    simp [buildProxyGroups, PROXY_GROUPS.SELECT, PROXY_GROUPS.MANUAL, PROXY_GROUPS.FALLBACK,
      PROXY_GROUPS.DIRECT, PROXY_GROUPS.LANDING, PROXY_GROUPS.LOW_COST]

/-- The group list main builds before appending the synthesized GLOBAL
group (a name for the corresponding subterm of main). -/
def mainBaseGroups (flags : FeatureFlags) (config : ClashConfig) : List ProxyGroup :=
  let countryInfo := parseCountries ⟨config.proxies⟩
  let lowCost := hasLowCost ⟨config.proxies⟩
  let countryGroupNames := getCountryGroupNames countryInfo flags.countryThreshold
  let countries := stripNodeSuffix countryGroupNames
  let lists := buildBaseLists flags.landing lowCost countryGroupNames
  let countryProxyGroups := buildCountryProxyGroups countries flags.landing flags.loadBalance
  buildProxyGroups flags.landing countries countryProxyGroups lowCost
    lists.defaultProxies lists.defaultProxiesDirect lists.defaultSelector lists.defaultFallback

lemma main_proxyGroups_eq (flags : FeatureFlags) (config : ClashConfig) :
    (main flags config).proxyGroups =
      mainBaseGroups flags config ++ [{
        name := "GLOBAL",
        icon := "https://gcore.jsdelivr.net/gh/Koolson/Qure@master/IconSet/Color/Global.png",
        includeAll := true,
        type := "select",
        proxies := some ((mainBaseGroups flags config).map ProxyGroup.name) }] := rfl

/-- C2: in every output, the synthesized GLOBAL group is the last group of
the proxy-groups list, its member list is exactly the names of all the other
groups in construction order, and GLOBAL itself does not appear among those
names (no self-reference, and no other group is named GLOBAL). -/
theorem global_group_spec (flags : FeatureFlags) (config : ClashConfig) :
    (main flags config).proxyGroups.getLast? = some
      { name := "GLOBAL",
        icon := "https://gcore.jsdelivr.net/gh/Koolson/Qure@master/IconSet/Color/Global.png",
        includeAll := true,
        type := "select",
        proxies := some ((main flags config).proxyGroups.dropLast.map ProxyGroup.name) } ∧
    ((main flags config).proxyGroups.dropLast.map ProxyGroup.name).contains "GLOBAL"
      = false := by
  rw [main_proxyGroups_eq, List.getLast?_concat, List.dropLast_concat]
  refine ⟨rfl, ?_⟩
  apply contains_eq_false_of_not_mem
  simp only [mainBaseGroups]
  rw [buildProxyGroups_names]
  intro hmem
  rcases List.mem_append.mp hmem with hmem2 | h5
  rotate_left
  · rw [List.mem_map] at h5
    obtain ⟨g, hg, hname⟩ := h5
    obtain ⟨c, hcn⟩ := name_of_mem_buildCountryProxyGroups hg
    exact append_node_suffix_ne_global c (hcn ▸ hname)
  rcases List.mem_append.mp hmem2 with hmem3 | h4
  rotate_left
  · cases hval : hasLowCost ⟨config.proxies⟩ <;> rw [hval] at h4 <;> simp at h4
  rcases List.mem_append.mp hmem3 with hmem4 | h3
  rotate_left
  · exact absurd h3 (by decide)
  rcases List.mem_append.mp hmem4 with h1 | h2
  · exact absurd h1 (by decide)
  · cases hval : flags.landing <;> rw [hval] at h2 <;> simp at h2

/-! ## Lemmas towards threshold suppression of pool groups -/

lemma mem_of_regionCountOf_pos {info : List RegionCount} {c : String}
    (h : 0 < regionCountOf info c) : ∃ e ∈ info, e.country = c := by
  cases hf : info.find? (fun e => e.country == c) with
  | none => simp [regionCountOf, hf] at h
  | some e =>
    have hp := List.find?_some hf
    exact ⟨e, List.mem_of_find?_eq_some hf, by simpa using hp⟩

lemma keys_bump (counts : List RegionCount) (c : String) :
    (bump counts c).map RegionCount.country =
      if c ∈ counts.map RegionCount.country then counts.map RegionCount.country
      else counts.map RegionCount.country ++ [c] := by
  induction counts with
  | nil => simp [bump]
  | cons f rest ih =>
    simp only [bump, List.map_cons]
    by_cases hf : f.country = c
    · rw [if_pos hf, if_pos (List.mem_cons.mpr (Or.inl hf.symm))]
      simp [List.map_cons]
    · rw [if_neg hf, List.map_cons, ih]
      by_cases hc : c ∈ rest.map RegionCount.country
      · rw [if_pos hc, if_pos (List.mem_cons.mpr (Or.inr hc))]
      · rw [if_neg hc,
          if_neg (fun hh => (List.mem_cons.mp hh).elim (fun h1 => hf h1.symm) hc),
          List.cons_append]

lemma nodup_keys_bump {counts : List RegionCount} {c : String}
    (h : (counts.map RegionCount.country).Nodup) :
    ((bump counts c).map RegionCount.country).Nodup := by
  rw [keys_bump]
  by_cases hc : c ∈ counts.map RegionCount.country
  · rw [if_pos hc]; exact h
  · rw [if_neg hc, List.nodup_append]
    refine ⟨h, List.nodup_singleton c, ?_⟩
    intro x hx hxc
    rw [List.mem_singleton] at hxc
    subst hxc
    exact hc hx

lemma classifyOne_cases (counts : List RegionCount) (p : Proxy) :
    classifyOne counts p = counts ∨
      ∃ f ∈ countriesMeta, classifyOne counts p = bump counts f.1 := by
  rw [classifyOne]
  cases hisp : ispTest p.name
  · cases hfind : countriesMeta.find? (fun e => regionTest e.2 p.name) with
    | none => simp
    | some f => exact Or.inr ⟨f, List.mem_of_find?_eq_some hfind, by simp⟩
  · simp

lemma parseCountries_aux_keys (ps : List Proxy) (acc : List RegionCount)
    (hacc : ∀ e ∈ acc, e.country ∈ countriesMeta.map Prod.fst) :
    ∀ e ∈ ps.foldl classifyOne acc, e.country ∈ countriesMeta.map Prod.fst := by
  induction ps generalizing acc with
  | nil => exact hacc
  | cons p ps ih =>
    rw [List.foldl_cons]
    apply ih
    rcases classifyOne_cases acc p with hsame | ⟨f, hfmem, hbump⟩
    · rw [hsame]; exact hacc
    · rw [hbump]
      intro e he
      have hkey : e.country ∈ (bump acc f.1).map RegionCount.country :=
        List.mem_map.mpr ⟨e, he, rfl⟩
      rw [keys_bump] at hkey
      by_cases hc : f.1 ∈ acc.map RegionCount.country
      · rw [if_pos hc] at hkey
        obtain ⟨e2, he2, hee⟩ := List.mem_map.mp hkey
        exact hee ▸ hacc e2 he2
      · rw [if_neg hc] at hkey
        rcases List.mem_append.mp hkey with hin | hone
        · obtain ⟨e2, he2, hee⟩ := List.mem_map.mp hin
          exact hee ▸ hacc e2 he2
        · rw [List.mem_singleton] at hone
          rw [hone]
          exact List.mem_map.mpr ⟨f, hfmem, rfl⟩

lemma parseCountries_keys (config : ClashConfig) :
    ∀ e ∈ parseCountries config, e.country ∈ countriesMeta.map Prod.fst :=
  parseCountries_aux_keys _ [] (by simp)

lemma parseCountries_aux_nodup (ps : List Proxy) (acc : List RegionCount)
    (hacc : (acc.map RegionCount.country).Nodup) :
    ((ps.foldl classifyOne acc).map RegionCount.country).Nodup := by
  induction ps generalizing acc with
  | nil => exact hacc
  | cons p ps ih =>
    rw [List.foldl_cons]
    apply ih
    rcases classifyOne_cases acc p with hsame | ⟨f, _, hbump⟩
    · rw [hsame]; exact hacc
    · rw [hbump]; exact nodup_keys_bump hacc

lemma parseCountries_nodup_keys (config : ClashConfig) :
    ((parseCountries config).map RegionCount.country).Nodup :=
  parseCountries_aux_nodup _ [] (by simp)

lemma count_eq_of_mem_nodup {info : List RegionCount}
    (hnd : (info.map RegionCount.country).Nodup)
    (e : RegionCount) (he : e ∈ info) : regionCountOf info e.country = e.count := by
  induction info with
  | nil => cases he
  | cons f rest ih =>
    rw [regionCountOf_cons]
    rw [List.map_cons, List.nodup_cons] at hnd
    rcases List.mem_cons.mp he with rfl | hrest
    · rw [if_pos rfl]
    · have hne : f.country ≠ e.country := by
        intro hh
        exact hnd.1 (hh ▸ List.mem_map.mpr ⟨e, hrest, rfl⟩)
      rw [if_neg hne]
      exact ih hnd.2 hrest

lemma strip_append (s : String) : stripNodeSuffixOne (s ++ NODE_SUFFIX) = s := by
  have hsuf : NODE_SUFFIX.data.isSuffixOf (s ++ NODE_SUFFIX).data = true := by
    rw [String.data_append]
    simp [List.isSuffixOf]
  rw [stripNodeSuffixOne, if_pos hsuf]
  apply String.ext
  show ((s ++ NODE_SUFFIX).data.take
    ((s ++ NODE_SUFFIX).data.length - NODE_SUFFIX.data.length)) = s.data
  rw [String.data_append, List.length_append,
    show s.data.length + NODE_SUFFIX.data.length - NODE_SUFFIX.data.length
      = s.data.length from by omega]
  exact List.take_left s.data NODE_SUFFIX.data

lemma strip_country_names (info : List RegionCount) (t : Int) :
    stripNodeSuffix (getCountryGroupNames info t) =
      (info.filter (fun i => decide (t ≤ (i.count : Int)))).map RegionCount.country := by
  rw [stripNodeSuffix, getCountryGroupNames, List.map_map]
  exact List.map_congr_left (fun i _ => strip_append i.country)

lemma findGroup_country_none {cs : List String} {landing lb : Bool} {c : String}
    (hc : c ∉ cs) :
    findGroup (buildCountryProxyGroups cs landing lb) (c ++ NODE_SUFFIX) = none := by
  induction cs with
  | nil => rfl
  | cons d rest ih =>
    have hcd : ¬ c = d := fun hh => hc (List.mem_cons.mpr (Or.inl hh))
    have hcrest : c ∉ rest := fun hh => hc (List.mem_cons.mpr (Or.inr hh))
    simp only [buildCountryProxyGroups, List.filterMap_cons]
    cases hfind : countriesMeta.find? (fun e => e.1 == d) with
    | none => exact ih hcrest
    | some e =>
      have hname : (d ++ NODE_SUFFIX == c ++ NODE_SUFFIX) = false :=
        beq_eq_false_iff_ne.mpr (fun hh => hcd (string_append_cancel hh).symm)
      have hrec := ih hcrest
      simp only [buildCountryProxyGroups, findGroup] at hrec
      simpa [findGroup, List.find?_cons, hname] using hrec

lemma findGroup_none_iff_not_mem (gs : List ProxyGroup) (n : String) :
    findGroup gs n = none ↔ n ∉ gs.map ProxyGroup.name := by
  induction gs with
  | nil => simp [findGroup]
  | cons g rest ih =>
    cases hg : (g.name == n)
    · have hne : g.name ≠ n := beq_eq_false_iff_ne.mp hg
      simp only [findGroup] at ih
      simp [findGroup, List.find?_cons, hg, List.map_cons, List.mem_cons, ih,
        fun hh : n = g.name => hne hh.symm]
      exact fun _ hh => hne hh.symm
    · have heq : g.name = n := beq_iff_eq.mp hg
      simp [findGroup, List.find?_cons, hg, List.map_cons, List.mem_cons, heq]

lemma pool_group_absent_aux (flags : FeatureFlags) (config : ClashConfig) (c : String)
    (h1 : (c ++ NODE_SUFFIX) ∉ (["选择代理", "手动选择"] : List String))
    (h2 : (c ++ NODE_SUFFIX) ∉ (["前置代理", "落地节点"] : List String))
    (h3 : (c ++ NODE_SUFFIX) ∉
      (["故障转移", "🔒 私有网络", "🛑 广告域名", "📋 Trackerslist", "⬇️ 直连软件",
        "🪟 微软服务", "🍎 苹果服务", "🇬 谷歌服务", "🎮 游戏服务", "🎥 奈飞视频",
        "📽️ 迪士尼+", "🎞️ Max", "🎬 Prime Video", "🍎 Apple TV+", "📹 油管视频",
        "🎵 TikTok", "📺 哔哩哔哩", "🎶 Spotify", "🌍 国外媒体", "🎮 游戏平台",
        "🤖 AI 平台", "📈 网络测试", "🧱 代理顶级域名", "🧱 代理域名", "🛡️ 直连域名",
        "🀄️ 直连 IP", "📲 电报消息", "直连", "🐟 漏网之鱼"] : List String))
    (h4 : (c ++ NODE_SUFFIX) ∉ (["低倍率节点"] : List String))
    (hnotcs : c ∉ stripNodeSuffix
      (getCountryGroupNames (parseCountries config) flags.countryThreshold)) :
    findGroup (main flags config).proxyGroups (c ++ NODE_SUFFIX) = none := by
  have hcpg : findGroup (buildCountryProxyGroups
      (stripNodeSuffix (getCountryGroupNames (parseCountries config) flags.countryThreshold))
      flags.landing flags.loadBalance) (c ++ NODE_SUFFIX) = none :=
    findGroup_country_none hnotcs
  rw [main_proxyGroups_eq, findGroup, List.find?_append, Option.or_eq_none]
  constructor
  · show findGroup (mainBaseGroups flags config) (c ++ NODE_SUFFIX) = none
    rw [findGroup_none_iff_not_mem]
    simp only [mainBaseGroups]
    rw [buildProxyGroups_names]
    intro hmem
    rcases List.mem_append.mp hmem with hmem2 | h5
    rotate_left
    · exact (findGroup_none_iff_not_mem _ _).mp hcpg h5
    rcases List.mem_append.mp hmem2 with hmem3 | hh4
    rotate_left
    · cases hval : hasLowCost ⟨config.proxies⟩ <;> rw [hval] at hh4
      · simp at hh4
      · exact h4 hh4
    rcases List.mem_append.mp hmem3 with hmem4 | hh3
    rotate_left
    · exact h3 hh3
    rcases List.mem_append.mp hmem4 with hh1 | hh2
    · exact h1 hh1
    · cases hval : flags.landing <;> rw [hval] at hh2
      · simp at hh2
      · exact h2 hh2
  · simp [List.find?, beq_eq_false_iff_ne.mpr (Ne.symm (append_node_suffix_ne_global c))]

/-- C9: a region whose match count is positive but below countryThreshold
gets no pool group at all: the country list handed to pool synthesis is
derived from the threshold-filtered selector names, so no group named
<region>节点 appears anywhere in the emitted proxy-groups list. -/
theorem threshold_suppresses_pool (flags : FeatureFlags) (config : ClashConfig) (c : String)
    (h0 : 0 < regionCountOf (parseCountries config) c)
    (hlt : (regionCountOf (parseCountries config) c : Int) < flags.countryThreshold) :
    findGroup (main flags config).proxyGroups (c ++ NODE_SUFFIX) = none := by
  obtain ⟨e, hemem, hec⟩ := mem_of_regionCountOf_pos h0
  have hckey : c ∈ countriesMeta.map Prod.fst := hec ▸ parseCountries_keys config e hemem
  have hnotcs : c ∉ stripNodeSuffix
      (getCountryGroupNames (parseCountries config) flags.countryThreshold) := by
    rw [strip_country_names]
    intro hmem
    obtain ⟨i, hi, hic⟩ := List.mem_map.mp hmem
    rw [List.mem_filter] at hi
    have hcount : regionCountOf (parseCountries config) c = i.count := by
      rw [← hic]
      exact count_eq_of_mem_nodup (parseCountries_nodup_keys config) i hi.1
    have hthr : flags.countryThreshold ≤ (i.count : Int) := of_decide_eq_true hi.2
    rw [hcount] at hlt
    omega
  simp only [countriesMeta, List.map_cons, List.map_nil, List.mem_cons,
    List.not_mem_nil, or_false] at hckey
  obtain rfl | rfl | rfl | rfl | rfl | rfl | rfl | rfl | rfl | rfl | rfl | rfl | rfl |
    rfl | rfl | rfl := hckey <;>
    exact pool_group_absent_aux flags config _
      (by decide) (by decide) (by decide) (by decide) hnotcs

/-- Witness for C9: with threshold 5 and one 香港 proxy (count 1), the
output contains no 香港节点 group. -/
theorem threshold_suppresses_pool_witness :
    findGroup (main ⟨false, false, false, false, false, false, false, 5⟩
      ⟨some [⟨"HK-01 香港"⟩]⟩).proxyGroups ("香港" ++ NODE_SUFFIX) = none :=
  threshold_suppresses_pool ⟨false, false, false, false, false, false, false, 5⟩
    ⟨some [⟨"HK-01 香港"⟩]⟩ "香港" (by decide) (by decide)

end OverrideRules
